import Mathlib

/-!
Verification of the zoom-adaptive spatial aggregation engine of the tapmap
repository.  The engine lives in the SQL function `get_fountains_for_map_view`
(defined in `src/tapmap_db/scripts/apply_filter_update.py`) and in the Flask
endpoints of `src/tapmap_api/app.py`.  SQL `DECIMAL` values are embedded as
rationals; the transcendental factor `COS(RADIANS((min_lat+max_lat)/2))` is
passed in as an explicit parameter `cosMid`, since every property below is
uniform in its value.  SQL `NULL`able columns and array parameters are
embedded as `Option`.
-/

namespace TapMap

/-- A row of the `fountains` table, as read by `get_fountains_for_map_view`.
The SQL column `type` is embedded as `ftype`. -/
structure Fountain where
  id : String
  name : String
  latitude : ℚ
  longitude : ℚ
  geohash : Option String
  status : String
  water_quality : String
  accessibility : String
  ftype : String
deriving Repr, DecidableEq

/-- One row of the `RETURNS TABLE` of `get_fountains_for_map_view`.
The SQL column `geohash_prefix` is embedded as `geohash_pfx`. -/
structure ResultRow where
  result_type : String
  geohash_pfx : Option String
  fountain_count : Option Nat
  center_lat : Option ℚ
  center_lng : Option ℚ
  fountain_id : Option String
  fountain_name : Option String
  latitude : Option ℚ
  longitude : Option ℚ
  geohash : Option String
  status : Option String
  water_quality : Option String
  accessibility : Option String
deriving Repr, DecidableEq

/-- The box test `f.latitude BETWEEN min_lat AND max_lat AND f.longitude
BETWEEN min_lng AND max_lng` (SQL `BETWEEN` is inclusive on both ends). -/
def inBox (min_lat max_lat min_lng max_lng : ℚ) (f : Fountain) : Bool :=
  decide (min_lat ≤ f.latitude) && decide (f.latitude ≤ max_lat) &&
  decide (min_lng ≤ f.longitude) && decide (f.longitude ≤ max_lng)

/-- The four filter conjuncts of both `WHERE` clauses:
`(filter_statuses IS NULL AND f.status = 'active' OR filter_statuses IS NOT
NULL AND f.status = ANY(filter_statuses))` and the three
`(x IS NULL OR col = ANY(x))` conjuncts; `= ANY(arr)` is membership. -/
def matchesFilters (fs fw fa ft : Option (List String)) (f : Fountain) : Bool :=
  (match fs with
   | none => decide (f.status = "active")
   | some l => decide (f.status ∈ l)) &&
  (match fw with
   | none => true
   | some l => decide (f.water_quality ∈ l)) &&
  (match fa with
   | none => true
   | some l => decide (f.accessibility ∈ l)) &&
  (match ft with
   | none => true
   | some l => decide (f.ftype ∈ l))

/-- The area estimate `area_km2 := lat_range * 111.0 * lng_range * 111.0 *
COS(RADIANS((min_lat + max_lat) / 2))`, with the cosine factor abstracted as
`cosMid`. -/
def area_km2 (min_lat max_lat min_lng max_lng cosMid : ℚ) : ℚ :=
  (max_lat - min_lat) * 111 * ((max_lng - min_lng) * 111) * cosMid

/-- The `precision_level` ladder of `get_fountains_for_map_view`. -/
def precisionForArea (a : ℚ) : ℕ :=
  if a > 1000000 then 2
  else if a > 100000 then 3
  else if a > 10000 then 4
  else if a > 1000 then 5
  else if a > 100 then 6
  else if a > 10 then 7
  else 8

/-- The `should_count` logic: when `return_counts IS NULL`, count iff
`area_km2 > 1000`; otherwise take the caller's flag; and the final `ELSE`
branch of the precision ladder (reached exactly when `area_km2 ≤ 10`) forces
`should_count := FALSE`. -/
def shouldCount (return_counts : Option Bool) (a : ℚ) : Bool :=
  let sc := match return_counts with
    | none => decide (a > 1000)
    | some b => b
  if a > 10 then sc else false

/-- The grouping key `LEFT(f.geohash, precision_level)` on a nullable
`geohash`. -/
def geohashTake (prec : ℕ) (f : Fountain) : Option String :=
  f.geohash.map (fun g => g.take prec)

/-- The rows scanned by the aggregate branch: inside the box, `geohash IS NOT
NULL`, and matching the filters. -/
def aggMatching (db : List Fountain) (min_lat max_lat min_lng max_lng : ℚ)
    (fs fw fa ft : Option (List String)) : List Fountain :=
  db.filter (fun f =>
    inBox min_lat max_lat min_lng max_lng f && f.geohash.isSome &&
      matchesFilters fs fw fa ft f)

/-- One `GROUP BY` output row: `COUNT(*)`, `AVG(latitude)`, `AVG(longitude)`
over the members sharing geohash prefix `p`. -/
def clusterRow (prec : ℕ) (matching : List Fountain) (p : String) : ResultRow :=
  let members := matching.filter (fun f => geohashTake prec f == some p)
  { result_type := "count"
    geohash_pfx := some p
    fountain_count := some members.length
    center_lat := some ((members.map Fountain.latitude).sum / (members.length : ℚ))
    center_lng := some ((members.map Fountain.longitude).sum / (members.length : ℚ))
    fountain_id := none
    fountain_name := none
    latitude := none
    longitude := none
    geohash := none
    status := none
    water_quality := none
    accessibility := none }

/-- The aggregate branch: `GROUP BY LEFT(f.geohash, precision_level)`,
one row per distinct prefix. -/
def aggRows (db : List Fountain) (min_lat max_lat min_lng max_lng : ℚ)
    (prec : ℕ) (fs fw fa ft : Option (List String)) : List ResultRow :=
  let matching := aggMatching db min_lat max_lat min_lng max_lng fs fw fa ft
  ((matching.filterMap (geohashTake prec)).dedup).map (clusterRow prec matching)

/-- The rows scanned by the point branch: inside the box and matching the
filters (no geohash condition here). -/
def pointMatching (db : List Fountain) (min_lat max_lat min_lng max_lng : ℚ)
    (fs fw fa ft : Option (List String)) : List Fountain :=
  db.filter (fun f =>
    inBox min_lat max_lat min_lng max_lng f && matchesFilters fs fw fa ft f)

/-- The ordering `ORDER BY f.latitude, f.longitude` ascending: strictly
smaller latitude, or equal latitude and no larger longitude. -/
def fLe (f g : Fountain) : Prop :=
  f.latitude < g.latitude ∨
    (f.latitude = g.latitude ∧ f.longitude ≤ g.longitude)

instance : DecidableRel fLe := fun f g =>
  inferInstanceAs (Decidable (f.latitude < g.latitude ∨
    (f.latitude = g.latitude ∧ f.longitude ≤ g.longitude)))

instance : IsTotal Fountain fLe where
  total f g := by
    rcases lt_trichotomy f.latitude g.latitude with h | h | h
    · exact Or.inl (Or.inl h)
    · rcases le_total f.longitude g.longitude with h2 | h2
      · exact Or.inl (Or.inr ⟨h, h2⟩)
      · exact Or.inr (Or.inr ⟨h.symm, h2⟩)
    · exact Or.inr (Or.inl h)

instance : IsTrans Fountain fLe where
  trans f g k h1 h2 := by
    rcases h1 with h1 | ⟨h1, h1l⟩ <;> rcases h2 with h2 | ⟨h2, h2l⟩
    · exact Or.inl (h1.trans h2)
    · exact Or.inl (h2 ▸ h1)
    · exact Or.inl (h1 ▸ h2)
    · exact Or.inr ⟨h1.trans h2, h1l.trans h2l⟩

/-- A point-branch output row for fountain `f`. -/
def fountainRow (f : Fountain) : ResultRow :=
  { result_type := "fountain"
    geohash_pfx := none
    fountain_count := none
    center_lat := none
    center_lng := none
    fountain_id := some f.id
    fountain_name := some f.name
    latitude := some f.latitude
    longitude := some f.longitude
    geohash := f.geohash
    status := some f.status
    water_quality := some f.water_quality
    accessibility := some f.accessibility }

/-- The point branch: matching rows `ORDER BY f.latitude, f.longitude
LIMIT 5000`. -/
def pointRows (db : List Fountain) (min_lat max_lat min_lng max_lng : ℚ)
    (fs fw fa ft : Option (List String)) : List ResultRow :=
  ((List.insertionSort fLe
      (pointMatching db min_lat max_lat min_lng max_lng fs fw fa ft)).take
    5000).map fountainRow

/-- The SQL function `get_fountains_for_map_view` of
`src/tapmap_db/scripts/apply_filter_update.py`, over an explicit table `db`
and with the cosine factor as parameter `cosMid`. -/
def get_fountains_for_map_view (db : List Fountain) (cosMid : ℚ)
    (min_lat max_lat min_lng max_lng : ℚ) (return_counts : Option Bool)
    (filter_statuses filter_water_qualities filter_accessibilities
      filter_types : Option (List String)) : List ResultRow :=
  let area := area_km2 min_lat max_lat min_lng max_lng cosMid
  if shouldCount return_counts area then
    aggRows db min_lat max_lat min_lng max_lng (precisionForArea area)
      filter_statuses filter_water_qualities filter_accessibilities filter_types
  else
    pointRows db min_lat max_lat min_lng max_lng
      filter_statuses filter_water_qualities filter_accessibilities filter_types

/-! ## The Flask layer (`src/tapmap_api/app.py`) -/

/-- The `/api/fountains/map-view` endpoint result: either an error status with
message, or the rows of the store query. -/
inductive ApiResponse where
  | error (code : ℕ) (msg : String)
  | ok (rows : List ResultRow)
deriving Repr, DecidableEq

/-- app.py lines 145-159: a present-but-empty filter array is replaced by
`None` before calling the SQL function. -/
def normalizeFilter : Option (List String) → Option (List String)
  | none => none
  | some xs => if xs.isEmpty then none else some xs

/-- Parsing `float(data.get(key, 0))`: an absent bound parses to 0. -/
def parseBound (x : Option ℚ) : ℚ := x.getD 0

/-- The check `not all([min_lat, max_lat, min_lng, max_lng])`: a parsed bound
is falsy exactly when it equals 0. -/
def boundsMissing (a b c d : Option ℚ) : Bool :=
  parseBound a == 0 || parseBound b == 0 || parseBound c == 0 || parseBound d == 0

/-- The `/api/fountains/map-view` handler: the truthiness check on the four
bounds, then empty-to-`None` filter normalization, then the store call with
`return_counts = NULL`. -/
def mapViewEndpoint (db : List Fountain) (cosMid : ℚ)
    (min_lat max_lat min_lng max_lng : Option ℚ)
    (statuses water_qualities accessibilities types : Option (List String)) :
    ApiResponse :=
  if boundsMissing min_lat max_lat min_lng max_lng then
    .error 400 "All bounds parameters are required"
  else
    .ok (get_fountains_for_map_view db cosMid
      (parseBound min_lat) (parseBound max_lat)
      (parseBound min_lng) (parseBound max_lng) none
      (normalizeFilter statuses) (normalizeFilter water_qualities)
      (normalizeFilter accessibilities) (normalizeFilter types))

/-- Modelled from the spec: the SQL function `get_fountains_in_bounds` called
by app.py's `/api/fountains/bounds` handler is not under `src/` (only its
caller is).  Per spec section 4.5 it returns the points inside the box ordered
by (latitude, longitude) ascending, silently truncated at `limit`. -/
def get_fountains_in_bounds (db : List Fountain)
    (min_lat max_lat min_lng max_lng : ℚ) (limit : ℕ) : List Fountain :=
  (List.insertionSort fLe
      (db.filter (inBox min_lat max_lat min_lng max_lng))).take limit

/-- The `/api/fountains/bounds` handler (app.py lines 252-269):
`max_results = int(data.get('max_results', 1000))`, passed to the store. -/
def boundsEndpoint (db : List Fountain)
    (min_lat max_lat min_lng max_lng : Option ℚ) (max_results : Option ℕ) :
    List Fountain :=
  get_fountains_in_bounds db (parseBound min_lat) (parseBound max_lat)
    (parseBound min_lng) (parseBound max_lng) (max_results.getD 1000)

/-- The column names of the `RETURNS TABLE` of `get_fountains_for_map_view`;
these are exactly the JSON keys of each row the map-view endpoint returns
(`RealDictCursor` keys rows by column name and app.py jsonifies them
unmodified). -/
def mapViewColumns : List String :=
  ["result_type", "geohash_prefix", "fountain_count", "center_lat",
   "center_lng", "fountain_id", "fountain_name", "latitude", "longitude",
   "geohash", "status", "water_quality", "accessibility"]

/-- Spec-side restatement of section 4.2's predicate, written from the spec's
words for comparison with `matchesFilters`: when the status allow-list is
absent or empty the status must be `active`, when non-empty the status must be
a member; each of the other three allow-lists is absent/empty or the value is
a member. -/
def specFilterAccepts (fs fw fa ft : Option (List String)) (f : Fountain) :
    Prop :=
  (match fs with
   | none => f.status = "active"
   | some l => if l = [] then f.status = "active" else f.status ∈ l) ∧
  (match fw with
   | none => True
   | some l => l = [] ∨ f.water_quality ∈ l) ∧
  (match fa with
   | none => True
   | some l => l = [] ∨ f.accessibility ∈ l) ∧
  (match ft with
   | none => True
   | some l => l = [] ∨ f.ftype ∈ l)

/-! ## Demo stores used by witnesses and counterexamples -/

/-- Demo fountain lying exactly on the line `latitude = 10`. -/
def lineFountain : Fountain :=
  { id := "f1", name := "Line", latitude := 10, longitude := 20,
    geohash := some "s1d0000000", status := "active",
    water_quality := "potable", accessibility := "yes", ftype := "drinking" }

/-- Demo fountain with geohash prefix 9q8y (scenario D). -/
def demoA : Fountain :=
  { id := "a", name := "A", latitude := 1, longitude := 1,
    geohash := some "9q8y1", status := "active", water_quality := "potable",
    accessibility := "yes", ftype := "drinking" }

/-- Second demo fountain with geohash prefix 9q8y. -/
def demoB : Fountain :=
  { id := "b", name := "B", latitude := 3, longitude := 3,
    geohash := some "9q8y2", status := "active", water_quality := "potable",
    accessibility := "yes", ftype := "drinking" }

/-- Demo fountain with geohash prefix 9q8z. -/
def demoC : Fountain :=
  { id := "c", name := "C", latitude := 5, longitude := 5,
    geohash := some "9q8z3", status := "active", water_quality := "potable",
    accessibility := "yes", ftype := "drinking" }

/-- The three-fountain demo store of scenario D. -/
def demoDb : List Fountain := [demoA, demoB, demoC]

/-- Generator for the big demo store: an active fountain at latitude `i`. -/
def mkBig (i : ℕ) : Fountain :=
  { id := "x", name := "X", latitude := (i : ℚ), longitude := 0,
    geohash := none, status := "active", water_quality := "potable",
    accessibility := "yes", ftype := "drinking" }

/-- A store of 1001 active fountains on the meridian segment latitude
0..1000. -/
def bigDb : List Fountain := (List.range 1001).map mkBig

/-- Demo fountain at an out-of-range latitude of 92 degrees. -/
def outOfRangeFountain : Fountain :=
  { id := "o1", name := "OffPlanet", latitude := 92, longitude := 15,
    geohash := some "zzz000", status := "active", water_quality := "potable",
    accessibility := "yes", ftype := "drinking" }

/-! ## Claims -/

/-- C1: with no explicit mode override (`return_counts IS NULL`), the engine
selects Aggregate mode (`should_count = TRUE`) iff the computed area exceeds
1000 km²; and whenever the computed area is at most 10 km², the mode is Points
(`should_count = FALSE`) for every override, including an explicit Aggregate
request. -/
theorem classify_mode (min_lat max_lat min_lng max_lng cosMid : ℚ) :
    (shouldCount none (area_km2 min_lat max_lat min_lng max_lng cosMid) = true
      ↔ 1000 < area_km2 min_lat max_lat min_lng max_lng cosMid) ∧
    (area_km2 min_lat max_lat min_lng max_lng cosMid ≤ 10 →
      ∀ ov : Option Bool,
        shouldCount ov (area_km2 min_lat max_lat min_lng max_lng cosMid)
          = false) := by
  set a := area_km2 min_lat max_lat min_lng max_lng cosMid with ha
  constructor
  · simp only [shouldCount]
    split_ifs with h10
    · simp only [decide_eq_true_eq]
    · simp only [Bool.false_eq_true, false_iff, not_lt]
      linarith
  · intro hle ov
    simp only [shouldCount]
    split_ifs with h10
    · linarith
    · rfl

/-- C1 witness: a 1 km² box (bounds 0..1/111 on both axes, cosine factor 1)
has area 1 ≤ 10, and an explicit Aggregate override is still forced to
Points. -/
theorem classify_mode_witness :
    shouldCount (some true) (area_km2 0 (1/111) 0 (1/111) 1) = false :=
  (classify_mode 0 (1/111) 0 (1/111) 1).2 (by norm_num [area_km2]) (some true)

set_option maxHeartbeats 2000000 in
/-- C2: the precision ladder is a monotonically non-increasing step function
of area with thresholds 1,000,000 / 100,000 / 10,000 / 1,000 / 100 / 10 km²
mapping to precisions 2/3/4/5/6/7/8, and the chosen precision always lies in
[2,8]. -/
theorem precision_monotone (a1 a2 : ℚ) (h : a1 ≤ a2) :
    precisionForArea a2 ≤ precisionForArea a1 ∧
    (2 ≤ precisionForArea a1 ∧ precisionForArea a1 ≤ 8) ∧
    (1000000 < a1 → precisionForArea a1 = 2) ∧
    (100000 < a1 ∧ a1 ≤ 1000000 → precisionForArea a1 = 3) ∧
    (10000 < a1 ∧ a1 ≤ 100000 → precisionForArea a1 = 4) ∧
    (1000 < a1 ∧ a1 ≤ 10000 → precisionForArea a1 = 5) ∧
    (100 < a1 ∧ a1 ≤ 1000 → precisionForArea a1 = 6) ∧
    (10 < a1 ∧ a1 ≤ 100 → precisionForArea a1 = 7) ∧
    (a1 ≤ 10 → precisionForArea a1 = 8) := by
  refine ⟨?_, ?_, ?_, ?_, ?_, ?_, ?_, ?_, ?_⟩
  · simp only [precisionForArea]
    split_ifs <;> first | omega | linarith
  · simp only [precisionForArea]
    split_ifs <;> omega
  all_goals
    simp only [precisionForArea]
    split_ifs <;>
      first
        | (rintro ⟨u, v⟩; first | rfl | (exfalso; linarith))
        | (intro hx; first | rfl | (exfalso; linarith))

/-- C2 witness: 5 ≤ 20000, the precision at 20000 (namely 4, since
10000 < 20000 ≤ 100000) is at most the precision at 5. -/
theorem precision_monotone_witness :
    precisionForArea 20000 ≤ precisionForArea 5 ∧ precisionForArea 20000 = 4 :=
  ⟨(precision_monotone 5 20000 (by norm_num)).1,
   (precision_monotone 20000 20000 le_rfl).2.2.2.2.1 ⟨by norm_num, by norm_num⟩⟩

/-- The status conjunct of the `WHERE` clause, after app.py's empty-to-`None`
normalization, agrees with the spec's reading. -/
lemma statusCond_iff (fs : Option (List String)) (s : String) :
    ((match normalizeFilter fs with
      | none => decide (s = "active")
      | some l => decide (s ∈ l)) = true) ↔
    (match fs with
     | none => s = "active"
     | some l => if l = [] then s = "active" else s ∈ l) := by
  rcases fs with _ | l
  · simp [normalizeFilter]
  · rcases l with _ | ⟨x, xs⟩ <;> simp [normalizeFilter]

/-- An attribute allow-list conjunct of the `WHERE` clause, after app.py's
empty-to-`None` normalization, agrees with the spec's reading. -/
lemma allowCond_iff (fo : Option (List String)) (s : String) :
    ((match normalizeFilter fo with
      | none => true
      | some l => decide (s ∈ l)) = true) ↔
    (match fo with
     | none => True
     | some l => l = [] ∨ s ∈ l) := by
  rcases fo with _ | l
  · simp [normalizeFilter]
  · rcases l with _ | ⟨x, xs⟩ <;> simp [normalizeFilter]

/-- C3: after the boundary normalization of app.py, the built predicate
accepts a point iff: the status allow-list is absent/empty and the status is
`active`, or it is non-empty and contains the status; and each of the water
quality, accessibility and type allow-lists is absent/empty or contains the
point's value.  Moreover a request with present-but-empty allow-lists gets
exactly the same response as one omitting them. -/
theorem filter_semantics (fs fw fa ft : Option (List String)) (f : Fountain)
    (db : List Fountain) (cosMid : ℚ) (A B C D : Option ℚ) :
    (matchesFilters (normalizeFilter fs) (normalizeFilter fw)
        (normalizeFilter fa) (normalizeFilter ft) f = true
      ↔ specFilterAccepts fs fw fa ft f) ∧
    mapViewEndpoint db cosMid A B C D (some []) (some []) (some []) (some [])
      = mapViewEndpoint db cosMid A B C D none none none none := by
  constructor
  · simp only [matchesFilters, specFilterAccepts, Bool.and_eq_true]
    rw [statusCond_iff, allowCond_iff, allowCond_iff, allowCond_iff]
    tauto
  · rfl

/-- C6 counterexample: the map-view response rows (keyed by the `RETURNS
TABLE` column names) contain no `truncated` field, so no point-mode response
includes one. -/
theorem truncated_field_missing : "truncated" ∉ mapViewColumns := by decide

/-- C6 (amended): point-mode responses carry exactly the thirteen columns of
the map-view table and no `truncated` flag, so callers cannot distinguish
"exactly N results" from "truncated at N". -/
theorem response_columns :
    mapViewColumns.length = 13 ∧ "truncated" ∉ mapViewColumns ∧
      "result_type" ∈ mapViewColumns := by decide

/-- C7 counterexample: a degenerate box with `min_lat = max_lat = 10` (and
longitude range 0..30) returns the fountain lying exactly on that line, not
the empty sequence: SQL `BETWEEN` is inclusive, so `min == max` keeps the
points sitting exactly on the edge. -/
theorem degenerate_box_cex :
    get_fountains_for_map_view [lineFountain] 1 10 10 0 30 none
        none none none none = [fountainRow lineFountain] ∧
      [fountainRow lineFountain] ≠ ([] : List ResultRow) := by
  refine ⟨?_, by simp⟩
  norm_num [get_fountains_for_map_view, area_km2, shouldCount, pointRows,
    pointMatching, inBox, matchesFilters, List.filter, List.insertionSort,
    List.orderedInsert, lineFountain]

/-- C7 (amended): an inverted box (min exceeding max on either axis) yields
the empty sequence — never an error — for every mode and filter set; a
degenerate box with `min = max` on an axis instead pins that coordinate
exactly, keeping points that lie on the boundary line. -/
theorem degenerate_box (db : List Fountain) (cosMid lo hi lo2 hi2 : ℚ)
    (rc : Option Bool) (fs fw fa ft : Option (List String)) :
    ((hi < lo ∨ hi2 < lo2) →
      get_fountains_for_map_view db cosMid lo hi lo2 hi2 rc fs fw fa ft = []) ∧
    (∀ f : Fountain, inBox lo lo lo2 hi2 f = true ↔
      f.latitude = lo ∧ lo2 ≤ f.longitude ∧ f.longitude ≤ hi2) := by
  constructor
  · intro hinv
    have hbox : ∀ f : Fountain, inBox lo hi lo2 hi2 f = false := by
      intro f
      rw [Bool.eq_false_iff]
      intro hc
      simp only [inBox, Bool.and_eq_true, decide_eq_true_eq] at hc
      obtain ⟨⟨⟨h1, h2⟩, h3⟩, h4⟩ := hc
      rcases hinv with h | h <;> linarith
    have hagg : aggMatching db lo hi lo2 hi2 fs fw fa ft = [] := by
      simp only [aggMatching, List.filter_eq_nil_iff]
      intro f _
      simp [hbox f]
    have hpt : pointMatching db lo hi lo2 hi2 fs fw fa ft = [] := by
      simp only [pointMatching, List.filter_eq_nil_iff]
      intro f _
      simp [hbox f]
    have h1 : ∀ prec, aggRows db lo hi lo2 hi2 prec fs fw fa ft = [] := by
      intro prec
      simp [aggRows, hagg]
    have h2 : pointRows db lo hi lo2 hi2 fs fw fa ft = [] := by
      simp [pointRows, hpt]
    simp only [get_fountains_for_map_view, h1, h2, ite_self]
  · intro f
    simp only [inBox, Bool.and_eq_true, decide_eq_true_eq]
    constructor
    · rintro ⟨⟨⟨h1, h2⟩, h3⟩, h4⟩
      exact ⟨le_antisymm h2 h1, h3, h4⟩
    · rintro ⟨h1, h2, h3⟩
      exact ⟨⟨⟨le_of_eq h1.symm, le_of_eq h1⟩, h2⟩, h3⟩

/-- C7 witness: an inverted box (5..4 on latitude) over a nonempty store
returns the empty sequence. -/
theorem degenerate_box_witness :
    get_fountains_for_map_view [lineFountain] 1 5 4 0 30 none
      none none none none = [] :=
  (degenerate_box [lineFountain] 1 5 4 0 30 none none none none none).1
    (Or.inl (by norm_num))

/-- C9: whenever one of the four bound parameters is absent or exactly 0
(e.g. a box edge lying on the equator or the prime meridian), the map-view
endpoint answers 400 "All bounds parameters are required" for every store
content — the point store is never consulted. -/
theorem zero_bound_rejected (db : List Fountain) (cosMid : ℚ)
    (A B C D : Option ℚ) (S W Ac T : Option (List String))
    (h : (A = none ∨ A = some 0) ∨ (B = none ∨ B = some 0) ∨
      (C = none ∨ C = some 0) ∨ (D = none ∨ D = some 0)) :
    mapViewEndpoint db cosMid A B C D S W Ac T
      = .error 400 "All bounds parameters are required" := by
  have hmiss : boundsMissing A B C D = true := by
    rcases h with (h | h) | (h | h) | (h | h) | (h | h) <;>
      simp [boundsMissing, parseBound, h]
  simp [mapViewEndpoint, hmiss]

/-- C9 witness: a box whose south edge sits exactly on the equator
(`min_lat = 0`) is rejected with 400 even over a nonempty store. -/
theorem zero_bound_rejected_witness :
    mapViewEndpoint [lineFountain] 1 (some 0) (some 50) (some 1) (some 2)
      none none none none = .error 400 "All bounds parameters are required" :=
  zero_bound_rejected [lineFountain] 1 (some 0) (some 50) (some 1) (some 2)
    none none none none (Or.inl (Or.inr rfl))

/-- The prefixes column of the aggregate rows is exactly the deduplicated
list of length-`prec` geohash prefixes of the matching fountains, each tagged
`some`. -/
lemma aggRows_map_pfx (db : List Fountain) (lo hi lo2 hi2 : ℚ) (prec : ℕ)
    (fs fw fa ft : Option (List String)) :
    (aggRows db lo hi lo2 hi2 prec fs fw fa ft).map ResultRow.geohash_pfx
      = ((aggMatching db lo hi lo2 hi2 fs fw fa ft).filterMap
          (geohashTake prec)).dedup.map some := by
  simp only [aggRows, List.map_map]
  rfl

/-- C4: in Aggregate mode the engine emits exactly one row per distinct
length-`prec` geohash prefix among the box-and-filter matching fountains with
non-null geohash; each row carries the member count and the arithmetic mean
of the member latitudes and longitudes; fountains with null geohash never
enter the aggregate scan but do enter the point-mode scan (and its rows, when
nothing is cut by the 5000 limit) for the same box and filters. -/
theorem aggregate_clusters (db : List Fountain) (cosMid lo hi lo2 hi2 : ℚ)
    (prec : ℕ) (fs fw fa ft : Option (List String)) :
    ((aggRows db lo hi lo2 hi2 prec fs fw fa ft).map ResultRow.geohash_pfx).Nodup ∧
    (∀ p : String,
      some p ∈ (aggRows db lo hi lo2 hi2 prec fs fw fa ft).map
          ResultRow.geohash_pfx ↔
        ∃ f ∈ aggMatching db lo hi lo2 hi2 fs fw fa ft,
          geohashTake prec f = some p) ∧
    (∀ r ∈ aggRows db lo hi lo2 hi2 prec fs fw fa ft,
      ∃ p : String, r.geohash_pfx = some p ∧ r.result_type = "count" ∧
        r.fountain_count = some (((aggMatching db lo hi lo2 hi2 fs fw fa ft).filter
            (fun f => geohashTake prec f == some p)).length) ∧
        r.center_lat = some ((((aggMatching db lo hi lo2 hi2 fs fw fa ft).filter
              (fun f => geohashTake prec f == some p)).map Fountain.latitude).sum /
            ((((aggMatching db lo hi lo2 hi2 fs fw fa ft).filter
              (fun f => geohashTake prec f == some p)).length : ℚ))) ∧
        r.center_lng = some ((((aggMatching db lo hi lo2 hi2 fs fw fa ft).filter
              (fun f => geohashTake prec f == some p)).map Fountain.longitude).sum /
            ((((aggMatching db lo hi lo2 hi2 fs fw fa ft).filter
              (fun f => geohashTake prec f == some p)).length : ℚ))) ∧
        0 < ((aggMatching db lo hi lo2 hi2 fs fw fa ft).filter
            (fun f => geohashTake prec f == some p)).length) ∧
    (∀ f ∈ db, f.geohash = none →
      f ∉ aggMatching db lo hi lo2 hi2 fs fw fa ft) ∧
    (∀ f ∈ db, f.geohash = none → inBox lo hi lo2 hi2 f = true →
      matchesFilters fs fw fa ft f = true →
      (pointMatching db lo hi lo2 hi2 fs fw fa ft).length ≤ 5000 →
      fountainRow f ∈
        get_fountains_for_map_view db cosMid lo hi lo2 hi2 (some false)
          fs fw fa ft) := by
  refine ⟨?_, ?_, ?_, ?_, ?_⟩
  · rw [aggRows_map_pfx]
    exact List.Nodup.map (Option.some_injective _) (List.nodup_dedup _)
  · intro p
    rw [aggRows_map_pfx]
    simp [List.mem_map, List.mem_dedup, List.mem_filterMap]
  · intro r hr
    simp only [aggRows, List.mem_map] at hr
    obtain ⟨p, hp, rfl⟩ := hr
    refine ⟨p, rfl, rfl, rfl, rfl, rfl, ?_⟩
    rw [List.mem_dedup, List.mem_filterMap] at hp
    obtain ⟨f, hfM, hfp⟩ := hp
    have hmem : f ∈ (aggMatching db lo hi lo2 hi2 fs fw fa ft).filter
        (fun f => geohashTake prec f == some p) :=
      List.mem_filter.mpr ⟨hfM, by simp [hfp]⟩
    exact List.length_pos.mpr (List.ne_nil_of_mem hmem)
  · intro f _ hnone
    simp [aggMatching, List.mem_filter, hnone]
  · intro f hf hnone hbox hmatch hlen
    have hfm : f ∈ pointMatching db lo hi lo2 hi2 fs fw fa ft :=
      List.mem_filter.mpr ⟨hf, by simp [hbox, hmatch]⟩
    have hsc : shouldCount (some false) (area_km2 lo hi lo2 hi2 cosMid)
        = false := by
      simp [shouldCount]
    have htake : (List.insertionSort fLe
          (pointMatching db lo hi lo2 hi2 fs fw fa ft)).take 5000
        = List.insertionSort fLe (pointMatching db lo hi lo2 hi2 fs fw fa ft) :=
      List.take_of_length_le (by rw [List.length_insertionSort]; exact hlen)
    simp only [get_fountains_for_map_view, hsc, Bool.false_eq_true, if_false,
      pointRows, htake, List.mem_map]
    exact ⟨f, (List.mem_insertionSort fLe).mpr hfm, rfl⟩

/-- C4 witness: on the scenario D store, the aggregate rows at precision 4
contain a row for prefix 9q8y. -/
theorem aggregate_clusters_witness :
    some "9q8y" ∈ (aggRows demoDb 0 10 0 10 4 none none none none).map
      ResultRow.geohash_pfx :=
  (((aggregate_clusters demoDb 1 0 10 0 10 4 none none none none).2.1)
      ("9q8y")).mpr ⟨demoA, by decide, by decide⟩

/-- Every aggregate-branch row is a `count` row with all per-fountain fields
null. -/
lemma mem_aggRows_fields {db : List Fountain} {lo hi lo2 hi2 : ℚ} {prec : ℕ}
    {fs fw fa ft : Option (List String)} {r : ResultRow}
    (hr : r ∈ aggRows db lo hi lo2 hi2 prec fs fw fa ft) :
    r.result_type = "count" ∧ r.fountain_id = none ∧ r.fountain_name = none ∧
      r.latitude = none ∧ r.longitude = none ∧ r.geohash = none ∧
      r.status = none ∧ r.water_quality = none ∧ r.accessibility = none := by
  simp only [aggRows, List.mem_map] at hr
  obtain ⟨p, _, rfl⟩ := hr
  exact ⟨rfl, rfl, rfl, rfl, rfl, rfl, rfl, rfl, rfl⟩

/-- Every point-branch row is a `fountain` row with all cluster fields
null. -/
lemma mem_pointRows_fields {db : List Fountain} {lo hi lo2 hi2 : ℚ}
    {fs fw fa ft : Option (List String)} {r : ResultRow}
    (hr : r ∈ pointRows db lo hi lo2 hi2 fs fw fa ft) :
    r.result_type = "fountain" ∧ r.geohash_pfx = none ∧
      r.fountain_count = none ∧ r.center_lat = none ∧ r.center_lng = none := by
  simp only [pointRows, List.mem_map] at hr
  obtain ⟨f, _, rfl⟩ := hr
  exact ⟨rfl, rfl, rfl, rfl, rfl⟩

/-- C10: every returned row is either a `count` row with all per-fountain
fields null, or a `fountain` row with all cluster fields null; and any two
rows of the same call have the same `result_type` (a single call never mixes
the two shapes). -/
theorem row_shape (db : List Fountain) (cosMid lo hi lo2 hi2 : ℚ)
    (rc : Option Bool) (fs fw fa ft : Option (List String)) :
    (∀ r ∈ get_fountains_for_map_view db cosMid lo hi lo2 hi2 rc fs fw fa ft,
      (r.result_type = "count" ∧ r.fountain_id = none ∧ r.fountain_name = none ∧
        r.latitude = none ∧ r.longitude = none ∧ r.geohash = none ∧
        r.status = none ∧ r.water_quality = none ∧ r.accessibility = none) ∨
      (r.result_type = "fountain" ∧ r.geohash_pfx = none ∧
        r.fountain_count = none ∧ r.center_lat = none ∧ r.center_lng = none)) ∧
    (∀ r1 ∈ get_fountains_for_map_view db cosMid lo hi lo2 hi2 rc fs fw fa ft,
      ∀ r2 ∈ get_fountains_for_map_view db cosMid lo hi lo2 hi2 rc fs fw fa ft,
        r1.result_type = r2.result_type) := by
  by_cases hsc : shouldCount rc (area_km2 lo hi lo2 hi2 cosMid) = true
  · constructor
    · intro r hr
      simp only [get_fountains_for_map_view, hsc, if_true] at hr
      exact Or.inl (mem_aggRows_fields hr)
    · intro r1 h1 r2 h2
      simp only [get_fountains_for_map_view, hsc, if_true] at h1 h2
      rw [(mem_aggRows_fields h1).1, (mem_aggRows_fields h2).1]
  · rw [Bool.not_eq_true] at hsc
    constructor
    · intro r hr
      simp only [get_fountains_for_map_view, hsc, Bool.false_eq_true,
        if_false] at hr
      exact Or.inr (mem_pointRows_fields hr)
    · intro r1 h1 r2 h2
      simp only [get_fountains_for_map_view, hsc, Bool.false_eq_true,
        if_false] at h1 h2
      rw [(mem_pointRows_fields h1).1, (mem_pointRows_fields h2).1]

/-- C10 witness: the single row returned for the degenerate demo query is a
well-shaped row of one of the two kinds. -/
theorem row_shape_witness :
    ((fountainRow lineFountain).result_type = "count" ∧
      (fountainRow lineFountain).fountain_id = none ∧
      (fountainRow lineFountain).fountain_name = none ∧
      (fountainRow lineFountain).latitude = none ∧
      (fountainRow lineFountain).longitude = none ∧
      (fountainRow lineFountain).geohash = none ∧
      (fountainRow lineFountain).status = none ∧
      (fountainRow lineFountain).water_quality = none ∧
      (fountainRow lineFountain).accessibility = none) ∨
    ((fountainRow lineFountain).result_type = "fountain" ∧
      (fountainRow lineFountain).geohash_pfx = none ∧
      (fountainRow lineFountain).fountain_count = none ∧
      (fountainRow lineFountain).center_lat = none ∧
      (fountainRow lineFountain).center_lng = none) :=
  (row_shape [lineFountain] 1 10 10 0 30 none none none none none).1
    (fountainRow lineFountain)
    (by norm_num [get_fountains_for_map_view, area_km2, shouldCount, pointRows,
      pointMatching, inBox, matchesFilters, List.filter, List.insertionSort,
      List.orderedInsert, lineFountain])

/-- C5 counterexample: with 1001 fountains in the box, the unfiltered legacy
bounds path with no explicit `max_results` returns 1000 rows — its default
limit is 1000, not the claimed 5000 (an explicit limit of 5000 would have
returned all 1001). -/
theorem legacy_default_limit_cex :
    (boundsEndpoint bigDb (some 0) (some 2000) (some (-1)) (some 1)
        none).length = 1000 ∧
    (boundsEndpoint bigDb (some 0) (some 2000) (some (-1)) (some 1)
        (some 5000)).length = 1001 := by
  have hfil : bigDb.filter (inBox 0 2000 (-1) 1) = bigDb := by
    rw [List.filter_eq_self]
    intro f hf
    rw [bigDb, List.mem_map] at hf
    obtain ⟨i, hi, rfl⟩ := hf
    rw [List.mem_range] at hi
    have h1 : (0:ℚ) ≤ (i:ℚ) := Nat.cast_nonneg i
    have h2 : (i:ℚ) ≤ 2000 := by
      have h3 : (i:ℚ) ≤ 1000 := by exact_mod_cast Nat.lt_succ_iff.mp hi
      linarith
    simp only [inBox, mkBig, Bool.and_eq_true, decide_eq_true_eq]
    exact ⟨⟨⟨h1, h2⟩, by norm_num⟩, by norm_num⟩
  have hlen : bigDb.length = 1001 := by
    rw [bigDb, List.length_map, List.length_range]
  constructor <;>
    · simp only [boundsEndpoint, get_fountains_in_bounds, parseBound,
        Option.getD_some, Option.getD_none, List.length_take,
        List.length_insertionSort, hfil, hlen]
      omega

/-- C5 (amended): the filtered map-view point branch returns only in-box,
filter-matching fountains, in (latitude, longitude) ascending order, silently
truncated at its fixed cap of 5000; the unfiltered legacy bounds path honours
`max_results` with default 1000, likewise sorted and in-box. -/
theorem point_retrieval (db : List Fountain) (cosMid lo hi lo2 hi2 : ℚ)
    (fs fw fa ft : Option (List String)) :
    (∃ sel : List Fountain,
      get_fountains_for_map_view db cosMid lo hi lo2 hi2 (some false)
          fs fw fa ft = sel.map fountainRow ∧
        sel.Pairwise fLe ∧ sel.length ≤ 5000 ∧
        ∀ f ∈ sel, f ∈ db ∧ inBox lo hi lo2 hi2 f = true ∧
          matchesFilters fs fw fa ft f = true) ∧
    (∀ A B C D : Option ℚ, ∀ mr : Option ℕ,
      (boundsEndpoint db A B C D mr).length ≤ mr.getD 1000 ∧
      (boundsEndpoint db A B C D mr).Pairwise fLe ∧
      ∀ f ∈ boundsEndpoint db A B C D mr, f ∈ db ∧
        inBox (parseBound A) (parseBound B) (parseBound C) (parseBound D) f
          = true) := by
  constructor
  · refine ⟨(List.insertionSort fLe
        (pointMatching db lo hi lo2 hi2 fs fw fa ft)).take 5000,
      ?_, ?_, ?_, ?_⟩
    · have hsc : shouldCount (some false) (area_km2 lo hi lo2 hi2 cosMid)
          = false := by
        simp [shouldCount]
      simp only [get_fountains_for_map_view, hsc, Bool.false_eq_true,
        if_false, pointRows]
    · exact List.Pairwise.sublist (List.take_sublist _ _)
        (List.sorted_insertionSort fLe _)
    · exact List.length_take_le _ _
    · intro f hf
      have hfm : f ∈ pointMatching db lo hi lo2 hi2 fs fw fa ft :=
        (List.mem_insertionSort fLe).mp (List.mem_of_mem_take hf)
      obtain ⟨hdb, hcond⟩ := List.mem_filter.mp hfm
      rw [Bool.and_eq_true] at hcond
      exact ⟨hdb, hcond.1, hcond.2⟩
  · intro A B C D mr
    refine ⟨?_, ?_, ?_⟩
    · exact List.length_take_le _ _
    · exact List.Pairwise.sublist (List.take_sublist _ _)
        (List.sorted_insertionSort fLe _)
    · intro f hf
      have hfm : f ∈ db.filter
          (inBox (parseBound A) (parseBound B) (parseBound C) (parseBound D)) :=
        (List.mem_insertionSort fLe).mp (List.mem_of_mem_take hf)
      exact List.mem_filter.mp hfm

/-- C5 witness: on a singleton store, the map-view point branch is a sorted
selection of at most 5000 in-box rows and the legacy path with absent
`max_results` returns at most its default of 1000 rows. -/
theorem point_retrieval_witness :
    (∃ sel : List Fountain,
      get_fountains_for_map_view [lineFountain] 1 0 20 0 30 (some false)
          none none none none = sel.map fountainRow ∧
        sel.Pairwise fLe ∧ sel.length ≤ 5000 ∧
        ∀ f ∈ sel, f ∈ [lineFountain] ∧ inBox 0 20 0 30 f = true ∧
          matchesFilters none none none none f = true) ∧
    (boundsEndpoint [lineFountain] (some 1) (some 20) (some 1) (some 30)
        none).length ≤ 1000 :=
  ⟨(point_retrieval [lineFountain] 1 0 20 0 30 none none none none).1,
   ((point_retrieval [lineFountain] 1 0 20 0 30 none none none none).2
      (some 1) (some 20) (some 1) (some 30) none).1⟩

/-- C8 counterexample: a request with out-of-range latitudes 91..92 is not
rejected — the endpoint consults the store and answers 200 with whatever the
scan finds there (a nonempty store yields a row, an empty store the empty
list), so no bound-range or finiteness validation happens before store
access.  The cosine parameter is negative since the midpoint latitude 91.5
has negative cosine. -/
theorem invalid_bounds_cex :
    mapViewEndpoint [outOfRangeFountain] (-1) (some 91) (some 92) (some 10)
        (some 20) none none none none
      = .ok [fountainRow outOfRangeFountain] ∧
    mapViewEndpoint [] (-1) (some 91) (some 92) (some 10) (some 20)
        none none none none = .ok [] := by
  constructor <;>
    norm_num [mapViewEndpoint, boundsMissing, parseBound, normalizeFilter,
      get_fountains_for_map_view, area_km2, shouldCount, pointRows,
      pointMatching, inBox, matchesFilters, List.filter, List.insertionSort,
      List.orderedInsert, outOfRangeFountain]

/-- C8 (amended): the map-view endpoint rejects — before any store access,
with 400 "All bounds parameters are required" — exactly those requests in
which some bound is absent or equal to 0; every other request, including ones
with non-finite or out-of-range coordinates or inverted/degenerate boxes, is
passed to the point store. -/
theorem bounds_validation (db : List Fountain) (cosMid : ℚ)
    (A B C D : Option ℚ) (S W Ac T : Option (List String)) :
    (boundsMissing A B C D = true →
      mapViewEndpoint db cosMid A B C D S W Ac T
        = .error 400 "All bounds parameters are required") ∧
    (boundsMissing A B C D = false →
      mapViewEndpoint db cosMid A B C D S W Ac T
        = .ok (get_fountains_for_map_view db cosMid (parseBound A)
            (parseBound B) (parseBound C) (parseBound D) none
            (normalizeFilter S) (normalizeFilter W) (normalizeFilter Ac)
            (normalizeFilter T))) := by
  constructor <;> intro h <;> simp [mapViewEndpoint, h]

/-- C8 witness: a zero bound is rejected with 400; four nonzero bounds reach
the store query. -/
theorem bounds_validation_witness :
    mapViewEndpoint [] 1 (some 0) (some 2) (some 3) (some 4)
        none none none none
      = .error 400 "All bounds parameters are required" ∧
    mapViewEndpoint [] 1 (some 1) (some 2) (some 3) (some 4)
        none none none none
      = .ok (get_fountains_for_map_view [] 1 1 2 3 4 none
          none none none none) :=
  ⟨(bounds_validation [] 1 (some 0) (some 2) (some 3) (some 4)
      none none none none).1 (by simp [boundsMissing, parseBound]),
   (bounds_validation [] 1 (some 1) (some 2) (some 3) (some 4)
      none none none none).2 (by simp [boundsMissing, parseBound])⟩

end TapMap
